import Mathlib

/-!
Verification development for the log-evaluation module of a
speed-estimation project (`speed_estimation/modules/evaluation/evaluate.py`).

The module parses log files into per-frame speed observations, aligns them
with a ground-truth table over a fixed schedule of 60-second windows, and
assembles a comparison table plus two charts and a summary CSV.

Shallow embedding conventions:
- A log line is modelled by what the two external parsers report about it:
  `videoMatch` is the capture group of the regex search for "Video: (.*)"
  (None when the regex does not match), `isCandidate` is whether the line
  starts with the record marker "INFO:root:" followed by an opening brace,
  and `parsed` is the result of JSON-decoding the line after the first ten
  characters are stripped (None models a raised decode error).
- pandas NaN / missing values are modelled by `Option`; a pandas `.mean()`
  over an empty (or all-missing) selection yields NaN, modelled by `none`.
- Python floats are modelled by `ℚ`; frame ids and times by `Int`.
- The Python dict of per-run series is modelled by an association list with
  dict semantics (first-occurrence key order, in-place value update).
-/

/-- One JSON record from a candidate log line.  Only the two recognized keys
matter to the module: the integer `frameId` and the optional float value
under the speed-towards key (absent for other multiplexed event types). -/
structure LogRecord where
  frameId : Int
  avgSpeedTowards : Option ℚ
deriving Repr, DecidableEq, Inhabited

/-- One raw line of a log file, as seen through the external regex and JSON
parsers (see the module docstring above). -/
structure LogLine where
  videoMatch : Option String
  isCandidate : Bool
  parsed : Option LogRecord
deriving Repr, DecidableEq, Inhabited

/-- One row of the ground-truth CSV `cars.csv`: columns `start`, `end`,
`speed`.  The `end` column is named `endTime` because `end` is reserved. -/
structure GroundTruthRecord where
  start : ℚ
  endTime : ℚ
  speed : ℚ
deriving Repr, DecidableEq, Inhabited

/-- Result of loading one log file: the tuple returned by `__load_log`. -/
structure RunResult where
  runId : String
  estimation : List LogRecord
  carsPath : Option String
deriving Repr, DecidableEq, Inhabited

/-- Python `s.strip("/")` on the character list: drop every leading and
trailing slash. -/
def stripSlashList (cs : List Char) : List Char :=
  ((cs.dropWhile (· == '/')).reverse.dropWhile (· == '/')).reverse

/-- Python `s.rstrip("/")` on the character list: drop trailing slashes
only.  Used to state the specification's reading of the identifier rule. -/
def rstripSlashList (cs : List Char) : List Char :=
  (cs.reverse.dropWhile (· == '/')).reverse

/-- Python `s.split("/")` on the character list: `[] ↦ [[]]`, separators
produce (possibly empty) segments. -/
def splitSlash : List Char → List (List Char)
  | [] => [[]]
  | c :: cs =>
    if c == '/' then [] :: splitSlash cs
    else
      match splitSlash cs with
      | s :: ss => (c :: s) :: ss
      | [] => [[c]]

/-- The video identifier the code derives from a cars path:
`cars_path.strip("/").split("/")[-1]`. -/
def videoIdOf (p : String) : String :=
  ((splitSlash (stripSlashList p.toList)).getLastD []).asString

/-- Video identifier as the specification words it: last path segment after
stripping only the trailing slash. -/
def specVideoId (p : String) : String :=
  ((splitSlash (rstripSlashList p.toList)).getLastD []).asString

/-- Python `os.path.join` for the two-argument POSIX cases used here: an
absolute second argument wins, an empty first argument contributes nothing,
and a separator is inserted only when the first argument does not already
end in one. -/
def osPathJoin (a b : String) : String :=
  if b.toList.head? = some '/' then b
  else if a = "" then b
  else if a.toList.getLast? = some '/' then a ++ b
  else a ++ "/" ++ b

/-- Python `x is not None` evaluated at an argument whose static type is
`str`: always true.  Kept as a definition so the dead branch guarded by it
in the source is visible in the embedding. -/
def strIsNotNone (_ : String) : Bool :=
  true

/-- pandas `.mean()` over a series of present values: NaN (`none`) on an
empty selection, otherwise the arithmetic mean. -/
def seriesMean (xs : List ℚ) : Option ℚ :=
  if xs.length = 0 then none else some (xs.sum / (xs.length : ℚ))

/-- pandas `.mean()` over a series that may hold NaN entries: missing
entries are skipped (skipna), an all-missing series yields NaN. -/
def meanOpt (xs : List (Option ℚ)) : Option ℚ :=
  seriesMean (xs.filterMap id)

/-- pandas elementwise subtraction on possibly-NaN values: NaN absorbs. -/
def subOpt : Option ℚ → Option ℚ → Option ℚ
  | some a, some b => some (a - b)
  | _, _ => none

/-- Body of the load loop of `__load_log`: walk the lines; a candidate line
is JSON-decoded (a decode failure aborts the whole load, modelled by
`none`), and the decoded record is kept only when it carries the
speed-towards key.  Non-candidate lines contribute nothing. -/
def collectAvgSpeeds : List LogLine → Option (List LogRecord)
  | [] => some []
  | l :: ls =>
    if l.isCandidate then
      match l.parsed with
      | none => none
      | some r =>
        (collectAvgSpeeds ls).map fun rest =>
          if r.avgSpeedTowards.isSome then r :: rest else rest
    else collectAvgSpeeds ls

/-- Embedding of `__load_log`: the cars path comes from the regex match on
the first line only; `max_depth` is initialised to 0 and never updated by
the source, so the depth tag is always `_depth_0`; the video id falls back
to the sentinel "-1" when no path was extracted. -/
def __load_log (lines : List LogLine) : Option RunResult :=
  let cars_path : Option String := lines.head?.bind LogLine.videoMatch
  match collectAvgSpeeds lines with
  | none => none
  | some avg_speeds =>
    let max_depth : Nat := 0
    let video_id : String :=
      match cars_path with
      | some p => videoIdOf p
      | none => "-1"
    some ⟨video_id ++ "_depth_" ++ toString max_depth, avg_speeds, cars_path⟩

/-- `list(map(__load_log, logs))`: every load must succeed. -/
def loadAll : List (List LogLine) → Option (List RunResult)
  | [] => some []
  | l :: ls =>
    match __load_log l, loadAll ls with
    | some r, some rs => some (r :: rs)
    | _, _ => none

/-- Row selection of `__avg_speed_for_time_estimation`: after scaling the
window bounds by 50, keep observations with `frameId` strictly greater than
the scaled start and less-than-or-equal the scaled end. -/
def estimationWindowSelect (estimation : List LogRecord) (timeStart timeEnd : Int) :
    List LogRecord :=
  estimation.filter fun r =>
    decide (timeStart * 50 < r.frameId) && decide (r.frameId ≤ timeEnd * 50)

/-- Row selection of `__avg_speed_for_time_ground_truth`: keep records whose
`start` is strictly greater than the window start and whose `end` is
less-than-or-equal the window end. -/
def groundTruthWindowSelect (cars_truth : List GroundTruthRecord) (timeStart timeEnd : Int) :
    List GroundTruthRecord :=
  cars_truth.filter fun r =>
    decide ((timeStart : ℚ) < r.start) && decide (r.endTime ≤ (timeEnd : ℚ))

/-- Embedding of `__avg_speed_for_time_estimation`. -/
def __avg_speed_for_time_estimation (estimation : List LogRecord) (timeStart timeEnd : Int) :
    Option ℚ :=
  seriesMean ((estimationWindowSelect estimation timeStart timeEnd).filterMap
    LogRecord.avgSpeedTowards)

/-- Embedding of `__avg_speed_for_time_ground_truth`. -/
def __avg_speed_for_time_ground_truth (cars_truth : List GroundTruthRecord)
    (timeStart timeEnd : Int) : Option ℚ :=
  seriesMean ((groundTruthWindowSelect cars_truth timeStart timeEnd).map
    GroundTruthRecord.speed)

/-- Python `range(start, stop, step)` for a positive step. -/
def pythonRange (start stop step : Int) : List Int :=
  (List.range (((stop - start + step - 1) / step).toNat)).map fun i =>
    start + (i : Int) * step

/-- Python dict assignment `d[k] = v`: update in place when the key exists,
append otherwise (insertion order is first-occurrence order). -/
def dictInsert {α : Type} (d : List (String × α)) (k : String) (v : α) :
    List (String × α) :=
  if d.any (fun p => p.1 == k) then
    d.map fun p => if p.1 == k then (k, v) else p
  else d ++ [(k, v)]

/-- Python `d[k].append(v)` on a dict of lists: mutate the entry at `k`. -/
def dictUpdate (d : List (String × List (Option ℚ))) (k : String) (v : Option ℚ) :
    List (String × List (Option ℚ)) :=
  d.map fun p => if p.1 == k then (p.1, p.2 ++ [v]) else p

/-- The dict comprehension `{k: [] for k in run_ids}`. -/
def initDict (run_ids : List String) : List (String × List (Option ℚ)) :=
  run_ids.foldl (fun d k => dictInsert d k []) []

/-- Accumulator of the alignment loop: ground-truth means, per-run series
dict, window end timestamps. -/
abbrev AlignAcc := List (Option ℚ) × List (String × List (Option ℚ)) × List Int

/-- One iteration of the alignment loop of `__generate_aligned_estimations`
at window start `start`: append the ground-truth mean, append one estimation
mean per entry of `run_ids` (indexing the loaded series positionally), and
append the window end timestamp. -/
def alignStep (run_ids : List String) (loaded_avg_speeds : List (List LogRecord))
    (ground_truth : List GroundTruthRecord) (acc : AlignAcc) (start : Int) : AlignAcc :=
  let e := start + 60
  ( acc.1 ++ [__avg_speed_for_time_ground_truth ground_truth start e],
    (run_ids.zip loaded_avg_speeds).foldl
      (fun d p => dictUpdate d p.1 (__avg_speed_for_time_estimation p.2 start e)) acc.2.1,
    acc.2.2 ++ [e] )

/-- Embedding of `__generate_aligned_estimations`: run the alignment loop
over `range(300, 30*60, 60)` starting from empty series. -/
def __generate_aligned_estimations (run_ids : List String)
    (loaded_avg_speeds : List (List LogRecord))
    (ground_truth : List GroundTruthRecord) : AlignAcc :=
  (pythonRange 300 (30 * 60) 60).foldl
    (alignStep run_ids loaded_avg_speeds ground_truth) ([], initDict run_ids, [])

/-- The length check `pd.DataFrame` performs on a dict of columns: all
columns must have one common length, otherwise construction raises. -/
def colsEqualLength (cols : List (String × List (Option ℚ))) : Bool :=
  match cols with
  | [] => true
  | c :: cs => cs.all fun d => d.2.length == c.2.length

/-- Row indices that survive `df.dropna(axis=0)`: those at which every
column holds a present value. -/
def keptRows (cols : List (String × List (Option ℚ))) : List Nat :=
  let n := match cols with | [] => 0 | c :: _ => c.2.length
  (List.range n).filter fun i =>
    cols.all fun c => ((c.2[i]?).getD none).isSome

/-- `df.dropna(axis=0)`: restrict every column to the kept row indices. -/
def dropna (cols : List (String × List (Option ℚ))) :
    List (String × List (Option ℚ)) :=
  cols.map fun c => (c.1, (keptRows cols).map fun i => (c.2[i]?).getD none)

/-- Column lookup `df[name]` (first column carrying that name). -/
def dfCol (cols : List (String × List (Option ℚ))) (name : String) :
    List (Option ℚ) :=
  match cols.find? (fun c => c.1 == name) with
  | some c => c.2
  | none => []

/-- The assignment `df[run_id_list] = df[run_id_list].sub(df["truth"],
axis=0)`: every run column is replaced by its elementwise difference with
the truth column; other columns are untouched. -/
def errColumns (run_ids : List String) (cols : List (String × List (Option ℚ))) :
    List (String × List (Option ℚ)) :=
  cols.map fun c =>
    if run_ids.contains c.1 then (c.1, List.zipWith subOpt c.2 (dfCol cols "truth"))
    else c

/-- External effect of one chart: either saved to a path or shown
interactively. -/
inductive ChartOut where
  | savedTo (path : String)
  | shown
deriving Repr, DecidableEq, Inhabited

/-- The distinct ways `plot_absolute_error` aborts, one constructor per
distinct Python exception site. -/
inductive EvalError where
  /-- `zip(*[])` cannot be unpacked into three names when `logs` is empty. -/
  | emptyInput
  /-- `json.loads` raised inside `__load_log`. -/
  | parseError
  /-- the explicit `raise Exception` of the same-video consistency check. -/
  | videoMismatch
  /-- `cars_path + "cars.csv"` raises `TypeError` when `cars_path` is None. -/
  | unknownVideoPath
  /-- `pd.read_csv` raised: no ground-truth file at the computed path. -/
  | fileNotFound
  /-- `pd.DataFrame` raised: the columns do not share one length. -/
  | columnLengthMismatch
deriving Repr, DecidableEq, Inhabited

/-- Observable outcome of a successful `plot_absolute_error` call: the
comparison table before and after the error subtraction, the two chart
effects, and the summary CSV content (path plus per-run mean). -/
structure EvalResult where
  runIdList : List String
  absTable : List (String × List (Option ℚ))
  errTable : List (String × List (Option ℚ))
  chart1 : ChartOut
  chart2 : ChartOut
  csvOut : Option (String × List (String × Option ℚ))
deriving Repr, DecidableEq, Inhabited

/-- Tail of `plot_absolute_error` once the comparison columns passed the
DataFrame length check: drop incomplete rows, emit the first chart (guarded
by `save_file_path != ""`), subtract the truth column from the run columns,
emit the second chart and the summary CSV (both guarded by
`save_file_path is not None`, which is always true for a `str` argument). -/
def buildResult (run_ids : List String) (cols : List (String × List (Option ℚ)))
    (cars_path save_file_path uuid_hex : String) : EvalResult :=
  let df := dropna cols
  let video_id := videoIdOf cars_path
  let chart1 :=
    if save_file_path ≠ "" then
      ChartOut.savedTo (osPathJoin save_file_path
        (video_id ++ "_" ++ uuid_hex ++ "_estimations.pdf"))
    else ChartOut.shown
  let df2 := errColumns run_ids df
  let chart2 :=
    if strIsNotNone save_file_path then
      ChartOut.savedTo (osPathJoin save_file_path
        (video_id ++ "_" ++ uuid_hex ++ "_mae.pdf"))
    else ChartOut.shown
  let csvOut :=
    if strIsNotNone save_file_path then
      some (osPathJoin save_file_path (video_id ++ "_" ++ uuid_hex ++ "_error.csv"),
        run_ids.map fun k => (k, meanOpt (dfCol df2 k)))
    else none
  ⟨run_ids, df, df2, chart1, chart2, csvOut⟩

/-- Embedding of `plot_absolute_error`.  `csv_files` models the filesystem
visible to `pd.read_csv` (path to parsed ground-truth rows, `none` for a
missing file); `uuid_hex` models the ten hex characters drawn from
`uuid.uuid4()`.  The stages appear in source order: load every log, check
that all loads report one cars path, read the ground-truth CSV from
`cars_path + "cars.csv"`, align, build the comparison columns, and finish
with `buildResult`. -/
def plot_absolute_error (csv_files : String → Option (List GroundTruthRecord))
    (logs : List (List LogLine)) (save_file_path : String) (uuid_hex : String) :
    Except EvalError EvalResult :=
  match loadAll logs with
  | none => Except.error EvalError.parseError
  | some results =>
    match results with
    | [] => Except.error EvalError.emptyInput
    | r0 :: rest =>
      if (r0 :: rest).all (fun r => decide (r.carsPath = r0.carsPath)) then
        match r0.carsPath with
        | none => Except.error EvalError.unknownVideoPath
        | some cars_path =>
          match csv_files (cars_path ++ "cars.csv") with
          | none => Except.error EvalError.fileNotFound
          | some cars =>
            let run_ids := (r0 :: rest).map RunResult.runId
            let loaded := (r0 :: rest).map RunResult.estimation
            let acc := __generate_aligned_estimations run_ids loaded cars
            let cols := ("truth", acc.1) :: acc.2.1 ++
              [("timestamps", acc.2.2.map fun t => some ((t : ℚ)))]
            if colsEqualLength cols then
              Except.ok (buildResult run_ids cols cars_path save_file_path uuid_hex)
            else Except.error EvalError.columnLengthMismatch
      else Except.error EvalError.videoMismatch

/-! Concrete fixtures used by the individual witnesses below.  They mirror
the end-to-end scenario of the specification: a first line carrying
`Video: /data/videoA/`, one record line at frame 18000, and a ground-truth
row `start=350, end=360, speed=40`. -/

/-- First log line carrying the video path marker. -/
def lineVideoA : LogLine :=
  { videoMatch := some "/data/videoA/", isCandidate := false, parsed := none }

/-- Record line with frame 18000 and speed-towards 42. -/
def lineRec42 : LogLine :=
  { videoMatch := none, isCandidate := true, parsed := some ⟨18000, some 42⟩ }

/-- Record line with frame 18000 and speed-towards 38. -/
def lineRec38 : LogLine :=
  { videoMatch := none, isCandidate := true, parsed := some ⟨18000, some 38⟩ }

/-- Candidate record line lacking the speed-towards key. -/
def lineRecNoSpeed : LogLine :=
  { videoMatch := none, isCandidate := true, parsed := some ⟨18000, none⟩ }

/-- Non-candidate noise line. -/
def lineNoise : LogLine :=
  { videoMatch := none, isCandidate := false, parsed := none }

/-- Log whose single observation overestimates the ground truth (42 vs 40). -/
def logA42 : List LogLine := [lineVideoA, lineRec42]

/-- Log whose single observation underestimates the ground truth (38 vs 40). -/
def logB38 : List LogLine := [lineVideoA, lineRec38]

/-- Filesystem fixture: one ground-truth CSV for video A. -/
def csvA : String → Option (List GroundTruthRecord) := fun p =>
  if p = "/data/videoA/cars.csv" then some [⟨350, 360, 40⟩] else none

/-- Evaluation result on the overestimating log with an empty destination. -/
def resA : EvalResult :=
  ((plot_absolute_error csvA [logA42] "" "u1").toOption).getD default

/-- Evaluation result on the underestimating log with an empty destination. -/
def resB : EvalResult :=
  ((plot_absolute_error csvA [logB38] "" "u2").toOption).getD default

/-- Column fixture with one incomplete row, for the dropna witness. -/
def colsW : List (String × List (Option ℚ)) :=
  [("a", [some 1, none]), ("b", [some 2, some 3])]

/-! Theorems. -/

/-- Appending one window to the accumulator appends exactly its end
timestamp to the timestamp component. -/
lemma alignStep_timestamps (ri : List String) (ld : List (List LogRecord))
    (gt : List GroundTruthRecord) (acc : AlignAcc) (s : Int) :
    (alignStep ri ld gt acc s).2.2 = acc.2.2 ++ [s + 60] := rfl

/-- The timestamp component of the alignment loop depends only on the
window starts, never on the data. -/
lemma foldl_alignStep_timestamps (ri : List String) (ld : List (List LogRecord))
    (gt : List GroundTruthRecord) :
    ∀ (l : List Int) (acc : AlignAcc),
      (l.foldl (alignStep ri ld gt) acc).2.2 = acc.2.2 ++ l.map (· + 60) := by
  intro l
  induction l with
  | nil => intro acc; simp
  | cons x xs ih =>
    intro acc
    rw [List.foldl_cons, ih, alignStep_timestamps, List.append_assoc]
    simp

/-- C1: both window aggregators use exclusive-start/inclusive-end bounds.
The estimation selection scales the bounds by 50 and keeps observations
with `frameId` strictly above the scaled start and at most the scaled end,
so a frame id equal to `windowStart*50` is excluded and one equal to
`windowEnd*50` is included; the ground-truth selection keeps records with
`start` strictly above the window start and `end` at most the window end;
and each aggregator's mean ranges exactly over its selection. -/
theorem C1_window_bounds (est : List LogRecord) (gt : List GroundTruthRecord)
    (ts te : Int) (r : LogRecord) (g : GroundTruthRecord) :
    (r ∈ estimationWindowSelect est ts te ↔
      r ∈ est ∧ ts * 50 < r.frameId ∧ r.frameId ≤ te * 50) ∧
    (g ∈ groundTruthWindowSelect gt ts te ↔
      g ∈ gt ∧ (ts : ℚ) < g.start ∧ g.endTime ≤ (te : ℚ)) ∧
    (r.frameId = ts * 50 → r ∉ estimationWindowSelect est ts te) ∧
    (r.frameId = te * 50 → ts < te → r ∈ est → r ∈ estimationWindowSelect est ts te) ∧
    __avg_speed_for_time_estimation est ts te =
      seriesMean ((estimationWindowSelect est ts te).filterMap LogRecord.avgSpeedTowards) ∧
    __avg_speed_for_time_ground_truth gt ts te =
      seriesMean ((groundTruthWindowSelect gt ts te).map GroundTruthRecord.speed) := by
  refine ⟨?_, ?_, ?_, ?_, rfl, rfl⟩
  · simp [estimationWindowSelect, List.mem_filter, and_assoc]
  · simp [groundTruthWindowSelect, List.mem_filter, and_assoc]
  · intro hf hmem
    have h := (List.mem_filter.mp hmem).2
    simp [hf] at h
  · intro hf hlt hmem
    refine List.mem_filter.mpr ⟨hmem, ?_⟩
    simp [hf]
    omega

/-- C1 witness: in the window `(300, 360]` an observation at frame
`300*50 = 15000` is excluded while one at frame `360*50 = 18000` is kept. -/
theorem C1_window_bounds_witness :
    (⟨15000, some 5⟩ : LogRecord) ∉
      estimationWindowSelect [⟨15000, some 5⟩] 300 360 ∧
    (⟨18000, some 5⟩ : LogRecord) ∈
      estimationWindowSelect [⟨18000, some 5⟩] 300 360 := by
  have h1 := C1_window_bounds [⟨15000, some 5⟩] [] 300 360 ⟨15000, some 5⟩ default
  have h2 := C1_window_bounds [⟨18000, some 5⟩] [] 300 360 ⟨18000, some 5⟩ default
  exact ⟨h1.2.2.1 rfl, h2.2.2.2.1 rfl (by decide) (by simp)⟩

/-- C2: the alignment engine always produces exactly 25 windows, with end
timestamps 360, 420, ..., 1800 and starts 300, 360, ..., 1740, for every
choice of run ids, loaded observations and ground-truth table. -/
theorem C2_fixed_window_schedule (ri : List String) (ld : List (List LogRecord))
    (gt : List GroundTruthRecord) :
    (__generate_aligned_estimations ri ld gt).2.2 =
      [360, 420, 480, 540, 600, 660, 720, 780, 840, 900, 960, 1020, 1080, 1140,
       1200, 1260, 1320, 1380, 1440, 1500, 1560, 1620, 1680, 1740, 1800] ∧
    (__generate_aligned_estimations ri ld gt).2.2.length = 25 ∧
    pythonRange 300 (30 * 60) 60 =
      [300, 360, 420, 480, 540, 600, 660, 720, 780, 840, 900, 960, 1020, 1080,
       1140, 1200, 1260, 1320, 1380, 1440, 1500, 1560, 1620, 1680, 1740] := by
  have h : (__generate_aligned_estimations ri ld gt).2.2 =
      ([] : List Int) ++ (pythonRange 300 (30 * 60) 60).map (· + 60) := by
    simp only [__generate_aligned_estimations]
    rw [foldl_alignStep_timestamps]
  rw [h]
  refine ⟨by decide, by decide, by decide⟩

attribute [local semireducible] Rat.add Rat.mul Rat.inv Rat.sub in
set_option maxRecDepth 4000 in
/-- C3: with an empty destination the code shows only the first chart
interactively; the second chart image and the summary CSV are still
written, because their guards test `is not None` on a parameter of static
type `str`.  Evaluated at a concrete log with an empty destination. -/
theorem C3_empty_destination_still_writes :
    resA.chart1 = ChartOut.shown ∧
    resA.chart2 = ChartOut.savedTo "videoA_u1_mae.pdf" ∧
    resA.csvOut = some ("videoA_u1_error.csv", [("videoA_depth_0", some 2)]) ∧
    plot_absolute_error csvA [logA42] "" "u1" = Except.ok resA := by
  refine ⟨by decide, by decide, by decide, by rfl⟩

attribute [local semireducible] Rat.add Rat.mul Rat.inv Rat.sub in
set_option maxRecDepth 4000 in
/-- C4: two runs over the same video receive the identical run identifier
(the depth counter is never incremented), the per-run dict collapses them
into one key that receives two values per window, and the DataFrame length
check fails: the evaluation aborts instead of producing a three-column
comparison table. -/
theorem C4_same_video_two_runs_fails :
    ((__load_log logA42).getD default).runId = "videoA_depth_0" ∧
    ((__load_log logB38).getD default).runId = "videoA_depth_0" ∧
    plot_absolute_error csvA [logA42, logA42] "" "u1" =
      Except.error EvalError.columnLengthMismatch := by
  refine ⟨by decide, by decide, by rfl⟩

/-- The kept observations of a successful load are in bijection with the
candidate lines whose decoded record carries the speed-towards key. -/
lemma collectAvgSpeeds_length :
    ∀ (lines : List LogLine) (obs : List LogRecord),
      collectAvgSpeeds lines = some obs →
      obs.length = lines.countP fun l =>
        l.isCandidate && l.parsed.elim false fun r => r.avgSpeedTowards.isSome := by
  intro lines
  induction lines with
  | nil =>
    intro obs h
    simp only [collectAvgSpeeds, Option.some_inj] at h
    simp [← h]
  | cons l ls ih =>
    intro obs h
    rw [collectAvgSpeeds] at h
    rw [List.countP_cons]
    cases hc : l.isCandidate with
    | false =>
      rw [hc, if_neg (by simp)] at h
      simp [hc, ih obs h]
    | true =>
      rw [hc, if_pos rfl] at h
      cases hp : l.parsed with
      | none => rw [hp] at h; exact absurd h (by simp)
      | some r =>
        rw [hp] at h
        rw [Option.map_eq_some'] at h
        obtain ⟨rest, hrest, hobs⟩ := h
        cases hs : r.avgSpeedTowards.isSome with
        | false =>
          rw [hs, if_neg (by simp)] at hobs
          subst hobs
          simp [hc, hp, hs, ih rest hrest]
        | true =>
          rw [hs, if_pos rfl] at hobs
          subst hobs
          simp [hc, hp, hs, List.length_cons, ih rest hrest]

/-- C7: for every log that loads successfully, the number of kept
observations equals the number of lines that carry the record marker and
whose decoded record contains the speed-towards key; candidate records
without the key and non-candidate lines contribute nothing. -/
theorem C7_observation_count (lines : List LogLine) (res : RunResult)
    (h : __load_log lines = some res) :
    res.estimation.length = lines.countP fun l =>
      l.isCandidate && l.parsed.elim false fun r => r.avgSpeedTowards.isSome := by
  rw [__load_log] at h
  cases hc : collectAvgSpeeds lines with
  | none => rw [hc] at h; exact absurd h (by simp)
  | some obs =>
    rw [hc] at h
    simp only [Option.some_inj] at h
    rw [← h]
    exact collectAvgSpeeds_length lines obs hc

/-- C7 witness: a log with the video line, one speed record, one candidate
record without the speed key and one noise line yields exactly one
observation, matching the count of speed-carrying candidate lines. -/
theorem C7_observation_count_witness :
    (((__load_log [lineVideoA, lineRec42, lineRecNoSpeed, lineNoise]).getD
        default).estimation).length =
      List.countP (fun l =>
        l.isCandidate && l.parsed.elim false fun r => r.avgSpeedTowards.isSome)
        [lineVideoA, lineRec42, lineRecNoSpeed, lineNoise] :=
  C7_observation_count [lineVideoA, lineRec42, lineRecNoSpeed, lineNoise] _ (by decide)

/-- C5: when two loaded runs disagree on the source video path, the
evaluation aborts with the explicit mismatch signal (distinct from the
parse-failure signal), for every possible ground-truth filesystem — in
particular before any ground-truth file is read and before any window
aggregation — and no result with output artifacts is produced. -/
theorem C5_video_mismatch_is_fatal (logs : List (List LogLine))
    (r0 : RunResult) (rest : List RunResult)
    (hload : loadAll logs = some (r0 :: rest))
    (hdiff : ∃ r ∈ rest, r.carsPath ≠ r0.carsPath) :
    ∀ (csv_files : String → Option (List GroundTruthRecord)) (sfp u : String),
      plot_absolute_error csv_files logs sfp u =
        Except.error EvalError.videoMismatch := by
  intro csv_files sfp u
  have hall : ((r0 :: rest).all fun r => decide (r.carsPath = r0.carsPath)) = false := by
    rw [List.all_eq_false]
    obtain ⟨r, hr, hne⟩ := hdiff
    exact ⟨r, List.mem_cons_of_mem _ hr, by simpa using hne⟩
  simp [plot_absolute_error, hload, hall]

/-- C5 witness: two logs whose first lines name different videos make the
evaluation fail with the mismatch signal, whatever the filesystem holds. -/
theorem C5_video_mismatch_is_fatal_witness :
    plot_absolute_error csvA
      [logA42, [⟨some "/data/videoB/", false, none⟩]] "" "u1" =
      Except.error EvalError.videoMismatch := by
  refine C5_video_mismatch_is_fatal _
    ⟨"videoA_depth_0", [⟨18000, some 42⟩], some "/data/videoA/"⟩
    [⟨"videoB_depth_0", [], some "/data/videoB/"⟩] (by decide) ?_ csvA "" "u1"
  exact ⟨⟨"videoB_depth_0", [], some "/data/videoB/"⟩, by decide, by decide⟩

/-- C10: when no log carries the video-path marker, every load succeeds
with the unknown marker, the cross-run consistency check passes, and the
evaluation then aborts at the ground-truth reading step (the unknown
marker cannot be joined with the fixed CSV name), for every filesystem;
no chart or summary is produced. -/
theorem C10_unknown_video_aborts_at_read (logs : List (List LogLine))
    (r0 : RunResult) (rest : List RunResult)
    (hload : loadAll logs = some (r0 :: rest))
    (hnone : ∀ r ∈ r0 :: rest, r.carsPath = none) :
    ∀ (csv_files : String → Option (List GroundTruthRecord)) (sfp u : String),
      plot_absolute_error csv_files logs sfp u =
        Except.error EvalError.unknownVideoPath := by
  intro csv_files sfp u
  have h0 : r0.carsPath = none := hnone r0 (List.mem_cons_self r0 rest)
  have hall : ((r0 :: rest).all fun r => decide (r.carsPath = r0.carsPath)) = true := by
    rw [List.all_eq_true]
    intro r hr
    simp [hnone r hr, h0]
  simp [plot_absolute_error, hload, hall, h0]
  intro r hr
  exact hnone r (List.mem_cons_of_mem _ hr)

/-- C10 witness: a single log whose first line lacks the marker loads with
the sentinel identifier, and the evaluation fails at the read step. -/
theorem C10_unknown_video_aborts_at_read_witness :
    plot_absolute_error csvA [[lineNoise, lineRec42]] "" "u1" =
      Except.error EvalError.unknownVideoPath := by
  refine C10_unknown_video_aborts_at_read _
    ⟨"-1_depth_0", [⟨18000, some 42⟩], none⟩ [] (by decide) ?_ csvA "" "u1"
  intro r hr
  simp only [List.mem_cons, List.not_mem_nil, or_false] at hr
  rw [hr]

/-- C8: a window whose selection is empty aggregates to the absence value
(for both aggregator variants); any table row holding an absence value in
some column is not among the kept rows; and after row-dropping the final
table holds no missing value in any column. -/
theorem C8_missing_data_round_trip (est : List LogRecord)
    (gt : List GroundTruthRecord) (ts te : Int)
    (cols : List (String × List (Option ℚ))) :
    (estimationWindowSelect est ts te = [] →
      __avg_speed_for_time_estimation est ts te = none) ∧
    (groundTruthWindowSelect gt ts te = [] →
      __avg_speed_for_time_ground_truth gt ts te = none) ∧
    (∀ (i : Nat) (c : String × List (Option ℚ)), c ∈ cols →
      c.2[i]? = some none → i ∉ keptRows cols) ∧
    (∀ c ∈ dropna cols, ∀ v ∈ c.2, v.isSome = true) := by
  refine ⟨?_, ?_, ?_, ?_⟩
  · intro h
    rw [__avg_speed_for_time_estimation, h]
    rfl
  · intro h
    rw [__avg_speed_for_time_ground_truth, h]
    rfl
  · intro i c hc hnone hmem
    simp only [keptRows] at hmem
    have hall := (List.mem_filter.mp hmem).2
    rw [List.all_eq_true] at hall
    have := hall c hc
    rw [hnone] at this
    simp at this
  · intro c hc v hv
    rw [dropna] at hc
    obtain ⟨c0, hc0, hc0eq⟩ := List.mem_map.mp hc
    rw [← hc0eq] at hv
    obtain ⟨i, hi, hieq⟩ := List.mem_map.mp hv
    simp only [keptRows] at hi
    have hall := (List.mem_filter.mp hi).2
    rw [List.all_eq_true] at hall
    rw [← hieq]
    exact hall c0 hc0

/-- C8 witness: an estimation window selecting nothing yields the absence
value, an empty ground-truth table likewise, and the row of `colsW` whose
first column is missing is not kept. -/
theorem C8_missing_data_round_trip_witness :
    __avg_speed_for_time_estimation [⟨100, some 5⟩] 300 360 = none ∧
    __avg_speed_for_time_ground_truth [] 300 360 = none ∧
    1 ∉ keptRows colsW := by
  have h := C8_missing_data_round_trip [⟨100, some 5⟩] [] 300 360 colsW
  exact ⟨h.1 (by decide), h.2.1 rfl,
    h.2.2.1 1 ("a", [some 1, none]) (by decide) (by decide)⟩

/-- Splitting always produces at least one segment. -/
lemma splitSlash_ne_nil (cs : List Char) : splitSlash cs ≠ [] := by
  cases cs with
  | nil => simp [splitSlash]
  | cons c cs =>
    rw [splitSlash]
    by_cases hc : (c == '/') = true
    · simp [hc]
    · rw [if_neg hc]
      cases hs : splitSlash cs <;> simp

/-- Unfolding of the trailing-slash strip over a leading character. -/
lemma rstripSlashList_cons (c : Char) (cs : List Char) :
    rstripSlashList (c :: cs) =
      if rstripSlashList cs = [] then (if c == '/' then [] else [c])
      else c :: rstripSlashList cs := by
  rw [rstripSlashList, List.reverse_cons, List.dropWhile_append]
  by_cases h : (cs.reverse.dropWhile (· == '/')) = []
  · rw [if_pos (by simpa using h)]
    have h2 : rstripSlashList cs = [] := by
      rw [rstripSlashList, h]; rfl
    rw [if_pos h2]
    cases hc : (c == '/') <;> simp [List.dropWhile_cons, hc]
  · rw [if_neg (by simpa using h)]
    have h2 : rstripSlashList cs ≠ [] := by
      rw [rstripSlashList]; simpa using h
    rw [if_neg h2, List.reverse_append]
    simp [rstripSlashList]

/-- Dropping leading slashes before the trailing strip does not change the
last path segment. -/
lemma last_seg_strip_aux (cs : List Char) :
    (splitSlash (rstripSlashList (cs.dropWhile (· == '/')))).getLastD [] =
      (splitSlash (rstripSlashList cs)).getLastD [] := by
  induction cs with
  | nil => rfl
  | cons c cs ih =>
    cases hc : (c == '/') with
    | false => rw [List.dropWhile_cons, if_neg (by simp [hc])]
    | true =>
      rw [List.dropWhile_cons, if_pos (by simp [hc]), ih]
      rw [rstripSlashList_cons]
      by_cases h2 : rstripSlashList cs = []
      · rw [if_pos h2, if_pos hc, h2]
      · rw [if_neg h2]
        obtain ⟨x, xs, hxx⟩ :=
          List.exists_cons_of_ne_nil (splitSlash_ne_nil (rstripSlashList cs))
        simp [splitSlash, hc, hxx, List.getLastD_cons]

/-- The code's both-sides strip and the specification's trailing-only strip
agree on the last path segment. -/
lemma videoIdOf_eq_specVideoId (p : String) : videoIdOf p = specVideoId p := by
  have h : stripSlashList p.toList =
      rstripSlashList (p.toList.dropWhile (· == '/')) := rfl
  rw [videoIdOf, specVideoId, h, last_seg_strip_aux]

/-- C9: a successful load names the run after the last path segment of the
extracted video path (trailing slash stripped) followed by the depth tag,
and after the sentinel "-1" with the same tag when no path was extracted;
the depth defaults to 0 in both cases. -/
theorem C9_run_identifier (lines : List LogLine) (res : RunResult)
    (h : __load_log lines = some res) :
    (∀ p, lines.head?.bind LogLine.videoMatch = some p →
      res.runId = specVideoId p ++ "_depth_0") ∧
    (lines.head?.bind LogLine.videoMatch = none → res.runId = "-1_depth_0") := by
  simp only [__load_log] at h
  cases hc : collectAvgSpeeds lines with
  | none => rw [hc] at h; exact absurd h (by simp)
  | some obs =>
    rw [hc] at h
    simp only [Option.some_inj] at h
    subst h
    constructor
    · intro p hp
      simp only [hp]
      rw [videoIdOf_eq_specVideoId, String.append_assoc]
      rfl
    · intro hp
      simp only [hp]
      rfl

/-- C9 witness: loading the video-A log names the run after the last
segment of "/data/videoA/" plus the depth tag. -/
theorem C9_run_identifier_witness :
    (⟨"videoA_depth_0", [⟨18000, some 42⟩], some "/data/videoA/"⟩ : RunResult).runId =
      specVideoId "/data/videoA/" ++ "_depth_0" :=
  (C9_run_identifier logA42
    ⟨"videoA_depth_0", [⟨18000, some 42⟩], some "/data/videoA/"⟩
    (by rfl)).1 "/data/videoA/" rfl

/-- Looking a run column up after the error subtraction returns the
pointwise difference of that run's column and the truth column. -/
lemma dfCol_errColumns (run_ids : List String)
    (cols : List (String × List (Option ℚ))) (k : String)
    (hk : run_ids.contains k = true) :
    dfCol (errColumns run_ids cols) k =
      List.zipWith subOpt (dfCol cols k) (dfCol cols "truth") := by
  rw [errColumns]
  rw [dfCol, List.find?_map]
  have hpred : ((fun c => c.1 == k) ∘ fun c : String × List (Option ℚ) =>
      if run_ids.contains c.1 then (c.1, List.zipWith subOpt c.2 (dfCol cols "truth"))
      else c) = fun c => c.1 == k := by
    funext c
    simp only [Function.comp]
    by_cases h : run_ids.contains c.1 = true
    · rw [if_pos h]
    · rw [if_neg h]
  rw [hpred]
  cases hf : cols.find? (fun c => c.1 == k) with
  | none => simp [dfCol, hf]
  | some c =>
    have hck : c.1 = k := by simpa using List.find?_some hf
    simp only [Option.map_some']
    rw [if_pos (by rw [hck]; exact hk)]
    simp [dfCol, hf]

/-- C6: in every successful evaluation the error view is the signed
difference: each run column of the error table is the pointwise
subtraction of the truth column from that run's column of the absolute
table (and the subtraction of present values is `a - b`, not its absolute
value), and the summary CSV holds, for each run, the mean of its signed
error column over the retained rows. -/
theorem C6_signed_error (csv_files : String → Option (List GroundTruthRecord))
    (logs : List (List LogLine)) (sfp u : String) (res : EvalResult)
    (h : plot_absolute_error csv_files logs sfp u = Except.ok res) :
    (∀ k, res.runIdList.contains k = true →
      dfCol res.errTable k =
        List.zipWith subOpt (dfCol res.absTable k) (dfCol res.absTable "truth")) ∧
    (∀ a b : ℚ, subOpt (some a) (some b) = some (a - b)) ∧
    (∃ p, res.csvOut = some (p, res.runIdList.map fun k =>
      (k, meanOpt (dfCol res.errTable k)))) := by
  have hres : ∃ ri cols cp, res = buildResult ri cols cp sfp u := by
    simp only [plot_absolute_error] at h
    split at h
    · exact Except.noConfusion h
    · split at h
      · exact Except.noConfusion h
      · split at h
        · split at h
          · exact Except.noConfusion h
          · split at h
            · exact Except.noConfusion h
            · split at h
              · exact ⟨_, _, _, by injection h with h2; exact h2.symm⟩
              · exact Except.noConfusion h
        · exact Except.noConfusion h
  obtain ⟨ri, cols, cp, hres⟩ := hres
  subst hres
  refine ⟨?_, fun a b => rfl, ?_⟩
  · intro k hk
    simp only [buildResult] at hk ⊢
    exact dfCol_errColumns ri (dropna cols) k hk
  · refine ⟨osPathJoin sfp (videoIdOf cp ++ "_" ++ u ++ "_error.csv"), ?_⟩
    simp [buildResult, strIsNotNone]

attribute [local semireducible] Rat.add Rat.mul Rat.inv Rat.sub in
set_option maxRecDepth 4000 in
/-- C6 witness: on the underestimating log the error column of the single
retained window equals the signed difference `38 - 40 = -2`, not its
absolute value. -/
theorem C6_signed_error_witness :
    dfCol resB.errTable "videoA_depth_0" =
      List.zipWith subOpt (dfCol resB.absTable "videoA_depth_0")
        (dfCol resB.absTable "truth") ∧
    dfCol resB.errTable "videoA_depth_0" = [some (-2)] := by
  refine ⟨(C6_signed_error csvA [logB38] "" "u2" resB (by rfl)).1
    "videoA_depth_0" (by decide), by decide⟩
